import Mathlib

/-!
Verification of the `bluetooth-device` package (`src/src/index.ts`): a
connection-lifecycle orchestrator for a single BLE peripheral built on the
`noble` adapter and the `ts-async-decorators` wrappers.  The method bodies
of `BluetoothDevice` are embedded directly from the source; the decorator
wrappers (`cancelable`, `retry`, `debounce`, `semaphore`, `after`) and the
noble callback-registration conventions are not part of this repository and
are modelled from the specification where a claim depends on them (each such
definition says so in its doc comment).
-/

/-- Connection states of a noble peripheral as read by `index.ts`
(`peripheral.state` checked against the string literals `'connected'`,
`'connecting'`, `'disconnecting'`, `'disconnected'`). -/
inductive PState
  | disconnected
  | connecting
  | connected
  | disconnecting
  deriving DecidableEq

/-- Error kinds surfaced by the orchestration layer (spec §7): cancellation,
timeout with a reason string, and adapter-reported failure. -/
inductive BTError
  | cancelled
  | timeoutExceeded (reason : String)
  | adapterError (message : String)
  deriving DecidableEq

/-- A discovered peripheral: its reported hardware address and its current
connection state. -/
structure Peripheral where
  address : String
  state : PState
  deriving DecidableEq

/-- `BluetoothDeviceOptions` from `index.ts` lines 12–36: all four fields
optional. -/
structure BluetoothDeviceOptions where
  discoveryTimeout : Option Nat
  idleTimeout : Option Nat
  retries : Option Nat
  timeoutMs : Option Nat
  deriving DecidableEq

/-- `DEFAULT_TIMEOUT_IDLE` (index.ts line 4). -/
def DEFAULT_TIMEOUT_IDLE : Nat := 120000

/-- `DEFAULT_TIMEOUT_DISCOVERY` (index.ts line 5). -/
def DEFAULT_TIMEOUT_DISCOVERY : Nat := 30000

/-- `DEFAULT_TIMEOUT` (index.ts line 6). -/
def DEFAULT_TIMEOUT : Nat := 10000

/-- `DEFAULT_NUMBER_OF_RETRIES` (index.ts line 7). -/
def DEFAULT_NUMBER_OF_RETRIES : Nat := 3

/-- `this.options.idleTimeout ?? DEFAULT_TIMEOUT_IDLE` (index.ts line 154). -/
def idleTimeoutOf (o : BluetoothDeviceOptions) : Nat :=
  o.idleTimeout.getD DEFAULT_TIMEOUT_IDLE

/-- `this.options.retries ?? DEFAULT_NUMBER_OF_RETRIES` (index.ts line 159). -/
def retriesOf (o : BluetoothDeviceOptions) : Nat :=
  o.retries.getD DEFAULT_NUMBER_OF_RETRIES

/-- The `BluetoothDevice` instance state: the immutable address passed to the
constructor and the mutable `private peripheral?: Peripheral` field. -/
structure BluetoothDevice where
  address : String
  peripheral : Option Peripheral
  options : BluetoothDeviceOptions
  deriving DecidableEq

/-! ## The connect body as a phase machine (index.ts lines 117–146)

`connect()` first returns if `this.peripheral?.state === 'connected'`.
Otherwise it builds a promise whose executor dispatches on the state:
`'connecting'` registers `once('connect', onConnect)` and waits;
`'disconnecting'` registers `once('disconnect', onDisconnect)` and waits;
otherwise it calls `onDisconnect()` which issues the radio-level
`this.peripheral?.connect(onConnect)`.  `onConnect` settles the promise,
`onDisconnect` issues a fresh radio connect. -/

/-- Peripheral events relevant to the connect body: the noble `connect` event
with an optional error string, and the `disconnect` event. -/
inductive NEvent
  | connectEv (error : Option String)
  | disconnectEv
  deriving DecidableEq

/-- Phase of an in-flight `connect()` body: waiting on the `connect` event,
waiting on the `disconnect` event, or settled with a result. -/
inductive CPhase
  | waitConnect
  | waitDisconnect
  | settled (r : Except BTError Unit)

/-- Entry dispatch of the `connect()` body (index.ts lines 118–144) given the
peripheral's state.  Returns the initial phase and whether a radio-level
connect is issued immediately.  `connected`: early return (line 118);
`connecting`: wait for the `connect` event (line 132); `disconnecting`: wait
for the `disconnect` event (line 138); otherwise `onDisconnect()` issues the
radio connect at once (line 144). -/
def connectInit : PState → CPhase × Bool
  | .connected => (.settled (.ok ()), false)
  | .connecting => (.waitConnect, false)
  | .disconnecting => (.waitDisconnect, false)
  | .disconnected => (.waitConnect, true)

/-- One peripheral event hitting an in-flight `connect()` body.  Returns the
new phase and whether this step issues a radio-level connect.  From
index.ts: `onConnect` (line 123) settles with the adapter error or success;
`onDisconnect` (line 124) runs `this.peripheral?.connect(onConnect)`, i.e.
issues the radio connect and then waits for the `connect` event. -/
def connectStep : CPhase → NEvent → CPhase × Bool
  | .waitConnect, .connectEv none => (.settled (.ok ()), false)
  | .waitConnect, .connectEv (some e) => (.settled (.error (.adapterError e)), false)
  | .waitConnect, .disconnectEv => (.waitConnect, false)
  | .waitDisconnect, .disconnectEv => (.waitConnect, true)
  | .waitDisconnect, .connectEv _ => (.waitDisconnect, false)
  | .settled r, _ => (.settled r, false)

/-- Run the connect body over a sequence of peripheral events; returns the
final phase and the number of radio-level connects issued along the way. -/
def connectRun : CPhase → List NEvent → CPhase × Nat
  | ph, [] => (ph, 0)
  | ph, e :: es =>
    let s := connectStep ph e
    let r := connectRun s.1 es
    (r.1, (if s.2 then 1 else 0) + r.2)

/-- The `disconnect()` body (index.ts lines 169–181) as a function of the
peripheral field: `none` or state `'disconnected'` returns immediately
(line 170); otherwise `this.peripheral?.disconnect(resolve)` issues the
radio-level disconnect and waits for the `disconnect` event.  Result:
(radio-level disconnect issued, resolves immediately). -/
def disconnectBody : Option PState → Bool × Bool
  | none => (false, true)
  | some .disconnected => (false, true)
  | some _ => (true, false)

/-- Modelled from the spec (§4.5): the `after` hook attached to `connect`
(index.ts line 109, `ts-async-decorators`, code not in this repository)
"if the wrapped attempt fails, triggers `disconnect()` as compensating
cleanup". -/
def connectAfterHook : Except BTError Unit → Bool
  | .ok _ => false
  | .error _ => true

/-! ## Listener registration and cancellation cleanup (claim C1)

Each public operation registers adapter/peripheral event listeners and, via
`onCancel`, a cleanup handler that removes exactly those listeners before the
call is rejected.  A listener is a pair of the event name and the identity of
the callback closure; each operation creates fresh closures, so its callback
identities do not occur in the pre-call baseline.  `noble`'s convention that
`peripheral.connect(cb)` / `disconnect(cb)` / `readHandle(h, cb)` /
`writeHandle(h, d, false, cb)` register `cb` as a one-shot listener for the
corresponding event (`connect`, `disconnect`, `handleRead<h>`,
`handleWrite<h>`) is modelled from the spec's adapter interface (§1). -/

/-- A registered event listener: the event name and the identity of the
callback closure. -/
abbrev Listener := String × Nat

/-- Callback identity of `onDiscover` (index.ts line 77). -/
def cbOnDiscover : Nat := 0

/-- Callback identity of `onStateChange` (index.ts line 87). -/
def cbOnStateChange : Nat := 1

/-- Callback identity of `onConnect` (index.ts line 123). -/
def cbOnConnect : Nat := 2

/-- Callback identity of `onDisconnect` (index.ts line 124). -/
def cbOnDisconnect : Nat := 3

/-- Callback identity of the `resolve` closure passed to
`this.peripheral?.disconnect(resolve)` (index.ts line 179). -/
def cbResolve : Nat := 4

/-- Callback identity of `onNotify` (index.ts line 206). -/
def cbOnNotify : Nat := 5

/-- Callback identity of `onRead` (index.ts line 244). -/
def cbOnRead : Nat := 6

/-- Callback identity of `onWrite` (index.ts line 276). -/
def cbOnWrite : Nat := 7

/-- The six public operations of `BluetoothDevice`. -/
inductive Op
  | discoverOp
  | connectOp
  | disconnectOp
  | notifyOp
  | readOp
  | writeOp
  deriving DecidableEq

/-- The listeners an operation's body registers, as a function of the
peripheral field (`none` = no peripheral; `some s` = peripheral in state
`s`) and, for read/write, the handle.  From index.ts:
`discover` registers `discover` and `stateChange` on noble only when no
peripheral is stored (lines 64, 94–95); `connect` registers
`once('connect', onConnect)` in the `connecting` branch (line 133),
`once('disconnect', onDisconnect)` in the `disconnecting` branch (line 139),
and in the remaining branch `onDisconnect()` runs
`this.peripheral?.connect(onConnect)` which registers the `connect`
callback (line 144, noble convention); `disconnect` registers the `resolve`
callback on `disconnect` via `this.peripheral?.disconnect(resolve)`
(line 179) unless it returned early (line 170); `notify` registers
`on('handleNotify', onNotify)` (line 219); `read` and `write` register their
callbacks on `handleRead<h>` / `handleWrite<h>` via
`readHandle`/`writeHandle` (lines 250, 282).  Optional chaining makes every
registration a no-op when no peripheral is stored. -/
def registeredListeners : Op → Option PState → Nat → List Listener
  | .discoverOp, none, _ => [("discover", cbOnDiscover), ("stateChange", cbOnStateChange)]
  | .discoverOp, some _, _ => []
  | .connectOp, none, _ => []
  | .connectOp, some .connected, _ => []
  | .connectOp, some .connecting, _ => [("connect", cbOnConnect)]
  | .connectOp, some .disconnecting, _ => [("disconnect", cbOnDisconnect)]
  | .connectOp, some .disconnected, _ => [("connect", cbOnConnect)]
  | .disconnectOp, none, _ => []
  | .disconnectOp, some .disconnected, _ => []
  | .disconnectOp, some _, _ => [("disconnect", cbResolve)]
  | .notifyOp, none, _ => []
  | .notifyOp, some _, _ => [("handleNotify", cbOnNotify)]
  | .readOp, none, _ => []
  | .readOp, some _, h => [("handleRead" ++ toString h, cbOnRead)]
  | .writeOp, none, _ => []
  | .writeOp, some _, h => [("handleWrite" ++ toString h, cbOnWrite)]

/-- A primitive action of a cancellation handler: remove one listener, stop
scanning, or settle the call with a `Cancelled` error.  Settling with
`Cancelled` is the `cancelable` decorator's behaviour, modelled from the
spec (§4.1): the cleanup callback runs synchronously, then the future fails
with `Cancelled`. -/
inductive CAction
  | removeL (l : Listener)
  | stopScan
  | settleCancelled
  deriving DecidableEq

/-- The sequence of actions the cancellation path of each operation performs,
transcribed from each `onCancel` handler in index.ts.  When an operation's
body returned before creating its promise (discover with a stored
peripheral, connect when already `connected`, disconnect with no peripheral
or already `disconnected`), no `onCancel` handler was registered and
cancellation merely settles.  `discover`'s handler runs `stop()` —
`stopScanning`, remove `stateChange`, remove `discover` (lines 70–74) — then
rejects; `connect`'s removes the `connect` and `disconnect` listeners
(lines 127–128) then rejects; `disconnect`'s removes the `disconnect`
listener (line 176) then rejects; `notify`'s runs `unsubscribe()`
(line 205) then rejects; `read`/`write` remove their handle listener
(lines 247, 279) then reject.  Removals through `this.peripheral?` are
no-ops when no peripheral is stored. -/
def cancelActions : Op → Option PState → Nat → List CAction
  | .discoverOp, none, _ =>
    [.stopScan, .removeL ("stateChange", cbOnStateChange), .removeL ("discover", cbOnDiscover),
      .settleCancelled]
  | .discoverOp, some _, _ => [.settleCancelled]
  | .connectOp, none, _ => [.settleCancelled]
  | .connectOp, some .connected, _ => [.settleCancelled]
  | .connectOp, some _, _ =>
    [.removeL ("connect", cbOnConnect), .removeL ("disconnect", cbOnDisconnect), .settleCancelled]
  | .disconnectOp, none, _ => [.settleCancelled]
  | .disconnectOp, some .disconnected, _ => [.settleCancelled]
  | .disconnectOp, some _, _ => [.removeL ("disconnect", cbResolve), .settleCancelled]
  | .notifyOp, none, _ => [.settleCancelled]
  | .notifyOp, some _, _ => [.removeL ("handleNotify", cbOnNotify), .settleCancelled]
  | .readOp, none, _ => [.settleCancelled]
  | .readOp, some _, h => [.removeL ("handleRead" ++ toString h, cbOnRead), .settleCancelled]
  | .writeOp, none, _ => [.settleCancelled]
  | .writeOp, some _, h => [.removeL ("handleWrite" ++ toString h, cbOnWrite), .settleCancelled]

/-- The listeners a cancellation handler's `removeListener` calls target
(the listener arguments of the `removeL` actions of `cancelActions`). -/
def cancelRemovalTargets (op : Op) (p : Option PState) (h : Nat) : List Listener :=
  (cancelActions op p h).filterMap fun a =>
    match a with
    | .removeL l => some l
    | _ => none

/-- Effect of one cancellation action on the adapter's listener list:
`removeListener` erases the first matching (event, callback) entry; the
other actions leave the listener list unchanged. -/
def applyCAction (ls : List Listener) : CAction → List Listener
  | .removeL l => ls.erase l
  | _ => ls

/-- Effect of a whole cancellation handler on the listener list. -/
def applyCActions (ls : List Listener) (as : List CAction) : List Listener :=
  as.foldl applyCAction ls

/-! ## Discovery (index.ts lines 63–101) -/

/-- JavaScript's `String.prototype.toLowerCase` on addresses, embedded as the
character-wise lowercase of the string's characters. -/
def strToLower (s : String) : String :=
  ⟨s.data.map Char.toLower⟩

/-- The address comparison performed by `onDiscover` (index.ts line 78): the
reported peripheral address is compared against `this.address.toLowerCase()`;
the reported address itself is not case-folded. -/
def discoverMatch (deviceAddress reported : String) : Bool :=
  reported == strToLower deviceAddress

/-- Case-insensitive address equality, as the spec words it ("equal ignoring
letter case"): both addresses case-folded before comparing. -/
def addrEqIgnoreCase (a b : String) : Bool :=
  strToLower a == strToLower b

/-- What `onDiscover` does with a reported address (index.ts lines 77–85):
when the comparison succeeds it stores the Peripheral Handle, runs `stop()`
(which stops scanning and removes both listeners), and resolves; otherwise
it does nothing. -/
structure DiscoverOutcome where
  stored : Bool
  unsubscribed : Bool
  stoppedScan : Bool
  deriving DecidableEq

/-- Effect of one `discovered` event on the discover body
(index.ts lines 77–85). -/
def onDiscoverEffect (deviceAddress reported : String) : DiscoverOutcome :=
  if discoverMatch deviceAddress reported then ⟨true, true, true⟩ else ⟨false, false, false⟩

/-- Result of one run of the `discover()` body: the device afterwards, how
many scans were started and stopped, which listeners the run registered, and
whether the run resolved. -/
structure DiscoverRes where
  device : BluetoothDevice
  scanStarts : Nat
  scanStops : Nat
  registered : List Listener
  settledOk : Bool
  deriving DecidableEq

/-- One run of the `discover()` body (index.ts lines 63–101) against a single
reported peripheral, with the adapter powered on (the spec drives scanning
from the powered-on state).  If a peripheral is already stored the body
returns at once: no scan, no listeners (lines 64–66).  Otherwise it
registers the `discover` and `stateChange` listeners and starts scanning
(lines 94–99); a matching report stores the handle, stops the scan and
resolves (lines 77–85); a non-matching report leaves the body pending. -/
def discoverRun (d : BluetoothDevice) (rep : Peripheral) : DiscoverRes :=
  if d.peripheral.isSome then ⟨d, 0, 0, [], true⟩
  else if discoverMatch d.address rep.address then
    ⟨{ d with peripheral := some rep }, 1, 1,
      [("discover", cbOnDiscover), ("stateChange", cbOnStateChange)], true⟩
  else ⟨d, 1, 0, [("discover", cbOnDiscover), ("stateChange", cbOnStateChange)], false⟩

/-- The `peripheral` field after running an operation's body.  The bodies of
`connect`, `disconnect`, `read`, `write` and `notify` contain no assignment
to `this.peripheral` — the only write in index.ts is line 82 inside
`discover`'s `onDiscover` — so they leave the field unchanged. -/
def runOpPeripheral (op : Op) (d : BluetoothDevice) (rep : Peripheral) : Option Peripheral :=
  match op with
  | .discoverOp => (discoverRun d rep).device.peripheral
  | _ => d.peripheral

/-! ## Debounce (index.ts lines 152–156) — modelled from the spec (§4.6)

The `debounce` decorator wrapping `disconnect` is from `ts-async-decorators`
and its code is not in this repository.  Modelled from the spec: "invoking it
schedules execution after `idleTimeout` milliseconds of inactivity rather
than immediately; every call to the debounced function before the delay
elapses cancels the pending scheduled execution and reschedules it." -/

/-- Modelled from the spec (§4.6): runs the debounced `disconnect` over a
strictly ascending list of invocation times, carrying the pending deadline;
returns the times at which the wrapped `disconnect` actually executes.  An
invocation at time `t` while a deadline `d > t` is pending cancels that
pending execution and schedules a new one at `t + T`. -/
def debounceRun (T : Nat) : List Nat → Option Nat → List Nat
  | [], none => []
  | [], some d => [d]
  | t :: ts, none => debounceRun T ts (some (t + T))
  | t :: ts, some d =>
    if t < d then debounceRun T ts (some (t + T))
    else d :: debounceRun T ts (some (t + T))

/-! ## Retry (index.ts lines 157–161, 189–193, 229–233, 261–265) —
modelled from the spec (§4.3)

The `retry` decorator is from `ts-async-decorators` and its code is not in
this repository.  Modelled from the spec: "Attempts 1..maxAttempts+1 times;
on failure from cause other than `Cancelled`, retries immediately (no
backoff) until attempts exhausted, then surfaces the last failure.  A
`Cancelled` failure is never retried — it propagates immediately." -/

/-- Modelled from the spec (§4.3): the retry loop.  `op i` is the outcome of
the `i`-th attempt, `fuel` the remaining retries.  Returns the surfaced
result and the number of attempts made. -/
def retryRun {α : Type} (op : Nat → Except BTError α) : Nat → Nat → Except BTError α × Nat
  | 0, i => (op i, 1)
  | fuel + 1, i =>
    match op i with
    | .ok v => (.ok v, 1)
    | .error .cancelled => (.error .cancelled, 1)
    | .error _ =>
      let r := retryRun op fuel (i + 1)
      (r.1, r.2 + 1)

/-! ## Helper lemmas for the connect phase machine -/

/-- While waiting for the disconnect event, any event sequence not containing
the `disconnect` event leaves the body waiting and issues no radio connect. -/
theorem connectRun_waitDisconnect (evs : List NEvent) (h : NEvent.disconnectEv ∉ evs) :
    connectRun CPhase.waitDisconnect evs = (CPhase.waitDisconnect, 0) := by
  induction evs with
  | nil => rfl
  | cons e es ih =>
    rcases e with err | _
    · simpa [connectRun, connectStep] using ih (by simp at h; exact h)
    · simp at h

/-- Splitting a connect-body run over an appended event list. -/
theorem connectRun_append (ph : CPhase) (a b : List NEvent) :
    connectRun ph (a ++ b) =
      ((connectRun (connectRun ph a).1 b).1,
        (connectRun ph a).2 + (connectRun (connectRun ph a).1 b).2) := by
  induction a generalizing ph with
  | nil => simp [connectRun]
  | cons e es ih =>
    simp only [List.cons_append, connectRun, List.append_eq, ih, Nat.add_assoc]

/-- A settled connect body ignores all further events and never issues a
radio connect. -/
theorem connectRun_settled (r : Except BTError Unit) (evs : List NEvent) :
    connectRun (CPhase.settled r) evs = (CPhase.settled r, 0) := by
  induction evs with
  | nil => rfl
  | cons e es ih => simpa [connectRun, connectStep] using ih

/-! ## Claim C2: connect while disconnecting -/

/-- C2: if `connect()` runs while the peripheral's state is `disconnecting`,
it issues no radio-level connect at entry, issues none while any events
other than the `disconnect` completion arrive, and issues exactly one fresh
radio-level connect at the moment the `disconnect` event arrives (after
which it is waiting on the connect completion). -/
theorem connect_while_disconnecting_waits (evs : List NEvent)
    (h : NEvent.disconnectEv ∉ evs) :
    (connectInit PState.disconnecting).2 = false
    ∧ connectRun (connectInit PState.disconnecting).1 evs = (CPhase.waitDisconnect, 0)
    ∧ (connectRun (connectInit PState.disconnecting).1 (evs ++ [NEvent.disconnectEv])).2 = 1
    ∧ (connectRun (connectInit PState.disconnecting).1 (evs ++ [NEvent.disconnectEv])).1
        = CPhase.waitConnect := by
  have hbase : (connectInit PState.disconnecting).1 = CPhase.waitDisconnect := rfl
  refine ⟨rfl, ?_, ?_, ?_⟩
  · rw [hbase]; exact connectRun_waitDisconnect evs h
  · rw [hbase, connectRun_append, connectRun_waitDisconnect evs h]
    rfl
  · rw [hbase, connectRun_append, connectRun_waitDisconnect evs h]
    rfl

/-- Witness for C2 at a concrete event sequence. -/
theorem connect_while_disconnecting_waits_witness :
    NEvent.disconnectEv ∉ [NEvent.connectEv none]
    ∧ (connectRun (connectInit PState.disconnecting).1
        ([NEvent.connectEv none] ++ [NEvent.disconnectEv])).2 = 1 :=
  ⟨by decide, (connect_while_disconnecting_waits [NEvent.connectEv none] (by decide)).2.2.1⟩

/-! ## Claim C3: compensating disconnect after a failed connect -/

/-- C3: the after-hook on `connect` triggers `disconnect()` exactly when the
wrapped attempt failed, and the compensating `disconnect`, run while the
state machine is still in `connecting`, does issue the radio-level
disconnect (so the machine is not left in `connecting`). -/
theorem connect_after_hook_compensates :
    (∀ r : Except BTError Unit, connectAfterHook r = true ↔ ∃ e, r = Except.error e)
    ∧ disconnectBody (some PState.connecting) = (true, false) := by
  refine ⟨fun r => ?_, rfl⟩
  cases r <;> simp [connectAfterHook]

/-! ## Claim C5: disconnect idempotence -/

/-- C5: whenever no peripheral handle is stored or the peripheral's state is
already `disconnected`, the `disconnect()` body issues no radio-level
disconnect and resolves immediately. -/
theorem disconnect_idempotent (p : Option PState)
    (h : p = none ∨ p = some PState.disconnected) :
    disconnectBody p = (false, true) := by
  rcases h with h | h <;> subst h <;> rfl

/-- Witness for C5 at the no-peripheral input. -/
theorem disconnect_idempotent_witness :
    ((none : Option PState) = none ∨ (none : Option PState) = some PState.disconnected)
    ∧ disconnectBody none = (false, true) :=
  ⟨Or.inl rfl, disconnect_idempotent none (Or.inl rfl)⟩

/-! ## Claim C6: connect idempotence -/

/-- C6: when the peripheral's state is already `connected`, the `connect()`
body resolves at once with success and no radio-level connect is issued,
neither at entry nor by any later event. -/
theorem connect_idempotent :
    connectInit PState.connected = (CPhase.settled (Except.ok ()), false)
    ∧ ∀ evs : List NEvent, (connectRun (CPhase.settled (Except.ok ())) evs).2 = 0 :=
  ⟨rfl, fun evs => by rw [connectRun_settled]⟩

/-! ## Claim C1: cancellation removes every registered listener -/

/-- C1: for every public operation, in every branch of its body, canceling
the in-flight call applies a cleanup whose listener removals return the
adapter/peripheral listener list to the pre-call baseline, and the settle
with `Cancelled` is the last action of the cancellation handler — every
removal runs before the call settles.  The freshness hypotheses state that
the operation's own callback closures do not occur in the baseline. -/
theorem cancel_restores_listener_baseline (op : Op) (p : Option PState) (hdl : Nat)
    (baseline : List Listener)
    (hreg : ∀ l ∈ registeredListeners op p hdl, l ∉ baseline)
    (hrem : ∀ l ∈ cancelRemovalTargets op p hdl, l ∉ baseline) :
    applyCActions (baseline ++ registeredListeners op p hdl) (cancelActions op p hdl) = baseline
    ∧ (cancelActions op p hdl).getLast? = some CAction.settleCancelled
    ∧ ∀ a ∈ (cancelActions op p hdl).dropLast, a ≠ CAction.settleCancelled := by
  refine ⟨?_, ?_, ?_⟩
  · rcases op <;> rcases p with _ | (_ | _ | _ | _) <;>
      simp_all [registeredListeners, cancelActions, cancelRemovalTargets, applyCActions,
        applyCAction, List.erase_append_right, List.erase_cons_head, List.erase_cons_tail,
        List.erase_of_not_mem]
  · rcases op <;> rcases p with _ | (_ | _ | _ | _) <;> simp [cancelActions]
  · rcases op <;> rcases p with _ | (_ | _ | _ | _) <;> simp [cancelActions]

/-- Witness for C1: canceling `connect` mid-flight in the `disconnecting`
branch, against a one-element baseline. -/
theorem cancel_restores_listener_baseline_witness :
    ((∀ l ∈ registeredListeners Op.connectOp (some PState.disconnecting) 0,
        l ∉ [(("adapterStateChanged", 99) : Listener)])
      ∧ (∀ l ∈ cancelRemovalTargets Op.connectOp (some PState.disconnecting) 0,
        l ∉ [(("adapterStateChanged", 99) : Listener)]))
    ∧ applyCActions
        ([(("adapterStateChanged", 99) : Listener)]
          ++ registeredListeners Op.connectOp (some PState.disconnecting) 0)
        (cancelActions Op.connectOp (some PState.disconnecting) 0)
        = [(("adapterStateChanged", 99) : Listener)] :=
  ⟨⟨by decide, by decide⟩,
    (cancel_restores_listener_baseline Op.connectOp (some PState.disconnecting) 0
      [("adapterStateChanged", 99)] (by decide) (by decide)).1⟩

/-! ## Claim C4: debounced disconnect scheduling -/

/-- C4: an invocation of the debounced `disconnect` at time `c` schedules
execution at `c + T` (strictly later than `c`, never immediately), and a
further invocation at `c'` before that delay elapses cancels the pending
execution and reschedules it for a full new window ending at `c' + T`. -/
theorem debounced_disconnect_reschedules (T c cn : Nat) (hT : 0 < T)
    (h1 : c < cn) (h2 : cn < c + T) :
    debounceRun T [c] none = [c + T]
    ∧ c < c + T
    ∧ debounceRun T [c, cn] none = [cn + T] := by
  refine ⟨rfl, by omega, ?_⟩
  simp [debounceRun, h2]

/-- Witness for C4 at the default idle timeout, with the second invocation
one millisecond before the deadline. -/
theorem debounced_disconnect_reschedules_witness :
    (0 < idleTimeoutOf ⟨none, none, none, none⟩
      ∧ 0 < 119999
      ∧ 119999 < 0 + idleTimeoutOf ⟨none, none, none, none⟩)
    ∧ debounceRun (idleTimeoutOf ⟨none, none, none, none⟩) [0, 119999] none
        = [119999 + idleTimeoutOf ⟨none, none, none, none⟩] :=
  ⟨⟨by decide, by decide, by decide⟩,
    (debounced_disconnect_reschedules (idleTimeoutOf ⟨none, none, none, none⟩) 0 119999
      (by decide) (by decide) (by decide)).2.2⟩

/-! ## Claim C7: address matching during discovery -/

/-- C7 counterexample: with device address `"AA"` and reported address
`"AA"`, the two are equal ignoring case, yet `onDiscover` does not match —
the code lowercases only the device's address, so a reported address
containing uppercase letters never matches. -/
theorem discover_match_counterexample :
    ¬ (((onDiscoverEffect "AA" "AA").stored = true) ↔ (addrEqIgnoreCase "AA" "AA" = true)) := by
  decide

/-- C7 amended: assuming the reported address is already lowercase (noble's
convention), the handle is stored, the listeners unsubscribed and scanning
stopped exactly when the two addresses are equal ignoring letter case; the
three effects always coincide. -/
theorem discover_match_amended (d r : String) (hr : strToLower r = r) :
    ((onDiscoverEffect d r).stored = true ↔ addrEqIgnoreCase d r = true)
    ∧ (onDiscoverEffect d r).unsubscribed = (onDiscoverEffect d r).stored
    ∧ (onDiscoverEffect d r).stoppedScan = (onDiscoverEffect d r).stored := by
  have hm : discoverMatch d r = addrEqIgnoreCase d r := by
    simp only [discoverMatch, addrEqIgnoreCase, hr]
    rw [Bool.eq_iff_iff, beq_iff_eq, beq_iff_eq]
    exact eq_comm
  unfold onDiscoverEffect
  rw [hm]
  cases hb : addrEqIgnoreCase d r <;> simp [hb]

/-- Witness for C7's amended statement at a mixed-case device address and a
lowercase reported address. -/
theorem discover_match_amended_witness :
    strToLower "ab:cd" = "ab:cd"
    ∧ ((onDiscoverEffect "AB:cd" "ab:cd").stored = true
        ↔ addrEqIgnoreCase "AB:cd" "ab:cd" = true) :=
  ⟨by decide, (discover_match_amended "AB:cd" "ab:cd" (by decide)).1⟩

/-! ## Claim C8: the peripheral handle is never reassigned -/

/-- C8: once the peripheral handle is stored, running any operation's body
leaves it unchanged (the only write to `this.peripheral` in index.ts is
line 82, guarded by the early return at line 64), and a subsequent
`discover()` run resolves at once with no scan and no listener
registration. -/
theorem peripheral_never_reassigned (op : Op) (d : BluetoothDevice) (rep : Peripheral)
    (per : Peripheral) (h : d.peripheral = some per) :
    runOpPeripheral op d rep = some per
    ∧ discoverRun d rep = ⟨d, 0, 0, [], true⟩ := by
  have hs : d.peripheral.isSome = true := by rw [h]; rfl
  have hd : discoverRun d rep = ⟨d, 0, 0, [], true⟩ := by simp [discoverRun, hs]
  refine ⟨?_, hd⟩
  rcases op <;> simp [runOpPeripheral, hd, h]

/-- Witness for C8: a device that already holds a handle, running
`connect`. -/
theorem peripheral_never_reassigned_witness :
    (BluetoothDevice.mk "aa:bb" (some ⟨"aa:bb", PState.disconnected⟩)
        ⟨none, none, none, none⟩).peripheral = some ⟨"aa:bb", PState.disconnected⟩
    ∧ runOpPeripheral Op.connectOp
        (BluetoothDevice.mk "aa:bb" (some ⟨"aa:bb", PState.disconnected⟩)
          ⟨none, none, none, none⟩)
        ⟨"cc:dd", PState.disconnected⟩
        = some ⟨"aa:bb", PState.disconnected⟩ :=
  ⟨rfl,
    (peripheral_never_reassigned Op.connectOp
      (BluetoothDevice.mk "aa:bb" (some ⟨"aa:bb", PState.disconnected⟩) ⟨none, none, none, none⟩)
      ⟨"cc:dd", PState.disconnected⟩ ⟨"aa:bb", PState.disconnected⟩ rfl).1⟩

/-! ## Claim C9: retry policy -/

/-- If every attempt in the window fails with a non-`Cancelled` error, the
retry loop makes all `n + 1` attempts and surfaces the last failure
unmodified. -/
theorem retryRun_all_fail {α : Type} (op : Nat → Except BTError α) :
    ∀ (n k : Nat),
      (∀ i, k ≤ i → i ≤ k + n → ∃ e, e ≠ BTError.cancelled ∧ op i = .error e) →
      retryRun op n k = (op (k + n), n + 1) := by
  intro n
  induction n with
  | zero => intro k _; simp [retryRun]
  | succ m ih =>
    intro k h
    obtain ⟨e, he, hk⟩ := h k (Nat.le_refl k) (by omega)
    have hrec : retryRun op m (k + 1) = (op (k + 1 + m), m + 1) := by
      refine ih (k + 1) fun i h1 h2 => h i (by omega) (by omega)
    cases e with
    | cancelled => exact absurd rfl he
    | timeoutExceeded s =>
      simp only [retryRun, hk, hrec]
      rw [show k + 1 + m = k + (m + 1) by omega]
    | adapterError s =>
      simp only [retryRun, hk, hrec]
      rw [show k + 1 + m = k + (m + 1) by omega]

/-- If the first `j` attempts fail with non-`Cancelled` errors and attempt
`j` fails with `Cancelled`, the retry loop stops right there: `Cancelled` is
never retried and propagates after exactly `j + 1` attempts. -/
theorem retryRun_cancelled_at {α : Type} (op : Nat → Except BTError α) :
    ∀ (j n k : Nat),
      (∀ i, k ≤ i → i < k + j → ∃ e, e ≠ BTError.cancelled ∧ op i = .error e) →
      j ≤ n → op (k + j) = .error .cancelled →
      retryRun op n k = (.error .cancelled, j + 1) := by
  intro j
  induction j with
  | zero =>
    intro n k _ _ hc
    rw [Nat.add_zero] at hc
    cases n with
    | zero => simp [retryRun, hc]
    | succ m => simp [retryRun, hc]
  | succ j ih =>
    intro n k h hn hc
    obtain ⟨e, he, hk⟩ := h k (Nat.le_refl k) (by omega)
    cases n with
    | zero => omega
    | succ m =>
      have hrec : retryRun op m (k + 1) = (.error .cancelled, j + 1) := by
        refine ih m (k + 1) (fun i h1 h2 => h i (by omega) (by omega)) (by omega) ?_
        rw [show k + 1 + j = k + (j + 1) by omega]
        exact hc
      cases e with
      | cancelled => exact absurd rfl he
      | timeoutExceeded s => simp [retryRun, hk, hrec]
      | adapterError s => simp [retryRun, hk, hrec]

/-- C9: the retry policy with retry count `n`, where `op i` is the outcome
of the `i`-th attempt.  A `Cancelled` failure is never retried: after `j`
non-`Cancelled` failures a `Cancelled` outcome propagates immediately with
`j + 1` attempts made.  Any other failure is retried until all `n + 1`
attempts are exhausted, after which the last failure is surfaced to the
caller unmodified. -/
theorem retry_policy {α : Type} (op : Nat → Except BTError α) (n : Nat) :
    ((∀ i, i ≤ n → ∃ e, e ≠ BTError.cancelled ∧ op i = .error e) →
        retryRun op n 0 = (op n, n + 1))
    ∧ (∀ j, j ≤ n →
        (∀ i, i < j → ∃ e, e ≠ BTError.cancelled ∧ op i = .error e) →
        op j = .error .cancelled →
        retryRun op n 0 = (.error .cancelled, j + 1)) := by
  constructor
  · intro h
    have := retryRun_all_fail op n 0 (fun i h1 h2 => h i (by omega))
    simpa using this
  · intro j hj h hc
    exact retryRun_cancelled_at op j n 0 (fun i h1 h2 => h i (by omega)) hj (by simpa using hc)

/-- Witness for C9: with the default retry count, three non-`Cancelled`
failures followed by further failures surface the fourth attempt's failure
after four attempts; and a `Cancelled` failure on the second attempt stops
the loop after two attempts. -/
theorem retry_policy_witness :
    retryRun (fun i => (Except.error (BTError.adapterError (toString i)) : Except BTError Unit))
        (retriesOf ⟨none, none, none, none⟩) 0
      = (Except.error (BTError.adapterError "3"), 4)
    ∧ retryRun
        (fun i => if i = 0 then (Except.error (BTError.timeoutExceeded "Read timeout.") : Except BTError Unit)
          else Except.error BTError.cancelled)
        (retriesOf ⟨none, none, none, none⟩) 0
      = (Except.error BTError.cancelled, 2) := by
  constructor
  · have h := (retry_policy
      (fun i => (Except.error (BTError.adapterError (toString i)) : Except BTError Unit))
      (retriesOf ⟨none, none, none, none⟩)).1
      (fun i _ => ⟨BTError.adapterError (toString i), by simp, rfl⟩)
    simpa using h
  · have h := (retry_policy
      (fun i => if i = 0 then (Except.error (BTError.timeoutExceeded "Read timeout.") : Except BTError Unit)
        else Except.error BTError.cancelled)
      (retriesOf ⟨none, none, none, none⟩)).2 1 (by decide)
      (fun i hi => ⟨BTError.timeoutExceeded "Read timeout.", by simp,
        by have h0 : i = 0 := by omega
           simp [h0]⟩)
      (by simp)
    simpa using h

/-! ## Claim C10: single-flight discovery -/

/-- C10: two concurrent `discover()` calls, serialized by the concurrency-1
gate (`@semaphore({ limit: 1 })`, modelled from the spec §4.4: the second
caller waits for the in-flight scan and runs only after it), cause exactly
one scan start and one scan stop in total; both callers resolve, and both
observe the same stored peripheral — the one found by the single scan. -/
theorem single_flight_discovery (d : BluetoothDevice) (rep : Peripheral)
    (h0 : d.peripheral = none) (hm : discoverMatch d.address rep.address = true) :
    (discoverRun d rep).scanStarts + (discoverRun (discoverRun d rep).device rep).scanStarts = 1
    ∧ (discoverRun d rep).scanStops + (discoverRun (discoverRun d rep).device rep).scanStops = 1
    ∧ (discoverRun d rep).settledOk = true
    ∧ (discoverRun (discoverRun d rep).device rep).settledOk = true
    ∧ (discoverRun d rep).device.peripheral = some rep
    ∧ (discoverRun (discoverRun d rep).device rep).device.peripheral = some rep := by
  have h1 : discoverRun d rep =
      ⟨{ d with peripheral := some rep }, 1, 1,
        [("discover", cbOnDiscover), ("stateChange", cbOnStateChange)], true⟩ := by
    simp [discoverRun, h0, hm]
  have h2 : discoverRun { d with peripheral := some rep } rep =
      ⟨{ d with peripheral := some rep }, 0, 0, [], true⟩ := by
    simp [discoverRun]
  rw [h1]
  simp [h2]

/-- Witness for C10 at a concrete device and matching peripheral. -/
theorem single_flight_discovery_witness :
    ((BluetoothDevice.mk "AA:BB" none ⟨none, none, none, none⟩).peripheral = none
      ∧ discoverMatch "AA:BB" "aa:bb" = true)
    ∧ (discoverRun (BluetoothDevice.mk "AA:BB" none ⟨none, none, none, none⟩)
          ⟨"aa:bb", PState.disconnected⟩).scanStarts
        + (discoverRun
            (discoverRun (BluetoothDevice.mk "AA:BB" none ⟨none, none, none, none⟩)
              ⟨"aa:bb", PState.disconnected⟩).device
            ⟨"aa:bb", PState.disconnected⟩).scanStarts = 1 :=
  ⟨⟨rfl, by decide⟩,
    (single_flight_discovery (BluetoothDevice.mk "AA:BB" none ⟨none, none, none, none⟩)
      ⟨"aa:bb", PState.disconnected⟩ rfl (by decide)).1⟩
